import Mathlib

set_option maxRecDepth 8000

/-!
Verification of the native crypto shim in src/internal/crypt/lowlevel.c.

The file gives a shallow embedding of the three C functions of the shim
(feature_test, wrap_crypt_r, wrap_crypt_gensalt_rn) and proves the spec's
claims about them.  The linked libxcrypt library is not part of the
repository: its two primitives crypt_r and crypt_gensalt_rn are therefore
parameters of the embedding (arbitrary functions of the arguments the shim
passes them), while everything the shim itself does - zeroing the scratch
struct, remapping an empty string to a null pointer, copying results out
with strdup / strndup, propagating null results - is embedded faithfully
from the C source.  C byte strings are lists of byte values; the C library
calls strdup and strndup are embedded with their POSIX semantics (both stop
copying at the first null terminator, strndup additionally reads at most n
bytes).  A null pointer at the interop boundary is Option.none, and
undefined behaviour (strlen of a null pointer) is the none of an outer
Option layer.
-/

namespace Lowlevel

/-- Byte sequences crossing the interop boundary, one natural number per byte. -/
abbrev Bytes := List Nat

/-- Size of the output buffer of crypt_gensalt_rn, from libxcrypt's crypt.h. -/
def CRYPT_GENSALT_OUTPUT_SIZE : Nat := 192

/-- Size of the output field of struct crypt_data, from libxcrypt's crypt.h. -/
def CRYPT_OUTPUT_SIZE : Nat := 384

/-- C strlen: the number of bytes before the first null terminator. -/
def strlen (s : Bytes) : Nat := (s.takeWhile (fun b => b != 0)).length

/-- C strdup: a fresh copy of the bytes up to (excluding) the first null terminator. -/
def strdup (s : Bytes) : Bytes := s.takeWhile (fun b => b != 0)

/-- C strndup: a fresh copy of at most n bytes, stopping at the first null terminator. -/
def strndup (s : Bytes) (n : Nat) : Bytes := (s.take n).takeWhile (fun b => b != 0)

/-- The struct crypt_data of libxcrypt: the output string field plus the
remaining internal working state, both byte sequences. -/
structure crypt_data where
  output : Bytes
  internal : Bytes
deriving DecidableEq

/-- The fully zeroed struct crypt_data that memset produces. -/
def zero_crypt_data : crypt_data :=
  { output := List.replicate CRYPT_OUTPUT_SIZE 0, internal := [] }

/-- The call memset(&data, 0, sizeof(struct crypt_data)): whatever garbage the
stack-allocated struct held, afterwards it is the zeroed struct. -/
def memset_zero : crypt_data → crypt_data := fun _ => zero_crypt_data

/-- Model of the library primitive crypt_r: a deterministic function of the
phrase, the setting and the scratch struct; none models a NULL result pointer,
some d models success with d the struct contents after the call. -/
abbrev CryptLib := Bytes → Bytes → crypt_data → Option crypt_data

/-- Embedding of wrap_crypt_r from lowlevel.c: the stack-allocated struct
(holding arbitrary garbage) is zeroed with memset, crypt_r is called on the
unmodified phrase and setting, a NULL result is returned as none, and on
success data.output is copied out with strdup. -/
def wrap_crypt_r (lib : CryptLib) (stackGarbage : crypt_data)
    (phrase setting : Bytes) : Option Bytes :=
  let data := memset_zero stackGarbage
  match lib phrase setting data with
  | none => none
  | some d => some (strdup d.output)

/-- Model of the library primitive crypt_gensalt_rn: a function of the nullable
algorithm id argument, the count, the nullable rbytes argument, nrbytes, the
initial contents of the output buffer and its size; none models a NULL result
pointer, some b models success with b the buffer contents after the call. -/
abbrev GensaltLib := Option Bytes → Nat → Option Bytes → Nat → Bytes → Nat → Option Bytes

/-- The call-and-copy tail of wrap_crypt_gensalt_rn: crypt_gensalt_rn is invoked
with the given nullable algorithm id, count 0, rbytes NULL, nrbytes 0, the
stack buffer and sizeof(buf); a NULL result is returned as none, and on success
the buffer is copied out with strndup(buf, CRYPT_GENSALT_OUTPUT_SIZE). -/
def gensalt_invoke (lib : GensaltLib) (pfxOpt : Option Bytes) (buf : Bytes) :
    Option Bytes :=
  match lib pfxOpt 0 none 0 buf CRYPT_GENSALT_OUTPUT_SIZE with
  | none => none
  | some outBuf => some (strndup outBuf CRYPT_GENSALT_OUTPUT_SIZE)

/-- Embedding of wrap_crypt_gensalt_rn from lowlevel.c for a non-null argument:
if strlen(pfx) == 0 the argument is replaced by NULL, then the library is
invoked and the result copied out.  buf is the arbitrary initial (garbage)
content of the stack-allocated output buffer. -/
def wrap_crypt_gensalt_rn (lib : GensaltLib) (buf : Bytes) (pfx : Bytes) :
    Option Bytes :=
  gensalt_invoke lib (if strlen pfx = 0 then none else some pfx) buf

/-- C strlen applied to a nullable pointer: strlen(NULL) is undefined
behaviour, modelled as none. -/
def cStrlen : Option Bytes → Option Nat
  | none => none
  | some s => some (strlen s)

/-- Embedding of wrap_crypt_gensalt_rn at the C boundary, where the argument is
a nullable pointer.  The source applies strlen to the argument before any null
check, so a null argument makes the whole call undefined (outer none); for a
present argument the call proceeds exactly as wrap_crypt_gensalt_rn. -/
def wrap_crypt_gensalt_rn_c (lib : GensaltLib) (buf : Bytes)
    (pfxOpt : Option Bytes) : Option (Option Bytes) :=
  match cStrlen pfxOpt with
  | none => none
  | some len => some (gensalt_invoke lib (if len = 0 then none else pfxOpt) buf)

/-- The error message of feature_test when CRYPT_GENSALT_IMPLEMENTS_DEFAULT_PREFIX
is not defined by the linked library's headers. -/
def default_prefix_missing_msg : String :=
  "libcrypt does not support CRYPT_GENSALT_IMPLEMENTS_DEFAULT_PREFIX"

/-- The error message of feature_test when CRYPT_GENSALT_IMPLEMENTS_AUTO_ENTROPY
is not defined by the linked library's headers. -/
def auto_entropy_missing_msg : String :=
  "libcrypt does not support CRYPT_GENSALT_IMPLEMENTS_AUTO_ENTROPY"

/-- Embedding of feature_test from lowlevel.c, as a function of the build: the
two booleans say whether the respective feature macro is defined by the linked
library's headers.  The ifndef for the default-prefix flag is compiled first,
so its message wins when both flags are missing; none models the NULL return. -/
def feature_test (hasDefaultPrefixFlag hasAutoEntropyFlag : Bool) : Option String :=
  if !hasDefaultPrefixFlag then some default_prefix_missing_msg
  else if !hasAutoEntropyFlag then some auto_entropy_missing_msg
  else none

/-- Example output-buffer contents for concrete evaluations: the setting bytes
of "$6$" followed by the null terminator and untouched zeros, filling all
CRYPT_GENSALT_OUTPUT_SIZE bytes of the buffer. -/
def exBuf : Bytes := 36 :: 54 :: 36 :: List.replicate 189 0

/-- Example crypt_gensalt_rn behaviour: always succeeds and leaves exBuf in the
output buffer. -/
def exGensaltLib : GensaltLib := fun _ _ _ _ _ _ => some exBuf

/-- Example crypt_r behaviour: always succeeds, writing the concatenation of
phrase and setting into the output field. -/
def exCryptLib : CryptLib := fun p s _ => some { output := p ++ s, internal := [] }

/-- Example crypt_r behaviour that always fails with a NULL result. -/
def exFailCryptLib : CryptLib := fun _ _ _ => none

theorem strndup_length_le (s : Bytes) (n : Nat) : (strndup s n).length ≤ n :=
  le_trans (List.takeWhile_sublist _).length_le (by simp [List.length_take])

theorem strndup_no_null (s : Bytes) (n : Nat) : ∀ b ∈ strndup s n, b ≠ 0 := by
  intro b hb
  simpa using List.mem_takeWhile_imp hb

/-- C2: wrap_crypt_r returns none exactly when crypt_r reports failure by a
NULL result on the zeroed scratch struct; on library success it returns the
strdup copy of data.output; a library error is never returned as a some value,
in particular never as an ambiguous empty string. -/
theorem claim_C2_error_iff (lib : CryptLib) (g : crypt_data) (p s : Bytes) :
    (wrap_crypt_r lib g p s = none ↔ lib p s zero_crypt_data = none) ∧
    (∀ d, lib p s zero_crypt_data = some d →
      wrap_crypt_r lib g p s = some (strdup d.output)) ∧
    (lib p s zero_crypt_data = none → wrap_crypt_r lib g p s ≠ some []) := by
  refine ⟨?_, ?_, ?_⟩
  · cases h : lib p s zero_crypt_data <;> simp [wrap_crypt_r, memset_zero, h]
  · intro d hd
    simp [wrap_crypt_r, memset_zero, hd]
  · intro h
    simp [wrap_crypt_r, memset_zero, h]

theorem claim_C2_witness :
    wrap_crypt_r exCryptLib zero_crypt_data [1] [2] = some (strdup ([1] ++ [2])) ∧
    wrap_crypt_r exFailCryptLib zero_crypt_data [1] [2] = none :=
  ⟨(claim_C2_error_iff exCryptLib zero_crypt_data [1] [2]).2.1
      { output := [1] ++ [2], internal := [] } rfl,
   (claim_C2_error_iff exFailCryptLib zero_crypt_data [1] [2]).1.mpr rfl⟩

/-- C3: feature_test returns none exactly when both feature flags are present
in the build; whenever at least one flag is absent it returns one of the two
fixed human-readable messages, and the returned message always names a feature
that is in fact missing. -/
theorem claim_C3_probe (hasDP hasAE : Bool) :
    (feature_test hasDP hasAE = none ↔ hasDP = true ∧ hasAE = true) ∧
    ((hasDP = false ∨ hasAE = false) →
      ∃ msg, feature_test hasDP hasAE = some msg ∧
        ((hasDP = false ∧ msg = default_prefix_missing_msg) ∨
         (hasAE = false ∧ msg = auto_entropy_missing_msg))) := by
  cases hasDP <;> cases hasAE <;> simp [feature_test]

theorem claim_C3_witness :
    ∃ msg, feature_test false true = some msg ∧
      ((false = false ∧ msg = default_prefix_missing_msg) ∨
       (true = false ∧ msg = auto_entropy_missing_msg)) :=
  (claim_C3_probe false true).2 (Or.inl rfl)

/-- C9: the feature flags are checked in a fixed order: whenever the
default-prefix flag is missing the default-prefix message is returned, even
when the auto-entropy flag is missing too; the auto-entropy message is
returned only in builds where the default-prefix flag is present and the
auto-entropy flag is absent. -/
theorem claim_C9_check_order :
    (∀ hasAE : Bool, feature_test false hasAE = some default_prefix_missing_msg) ∧
    feature_test true false = some auto_entropy_missing_msg ∧
    (∀ hasDP hasAE : Bool,
      feature_test hasDP hasAE = some auto_entropy_missing_msg →
        hasDP = true ∧ hasAE = false) := by
  refine ⟨fun a => by cases a <;> rfl, rfl, fun hasDP hasAE h => ?_⟩
  cases hasDP <;> cases hasAE <;>
    simp_all [feature_test, default_prefix_missing_msg, auto_entropy_missing_msg]

theorem claim_C9_witness :
    feature_test false false = some default_prefix_missing_msg ∧
    (true = true ∧ false = false) :=
  ⟨claim_C9_check_order.1 false, claim_C9_check_order.2.2 true false rfl⟩

/-- C5: wrap_crypt_r is deterministic: with the library primitive a fixed
function of phrase, setting and the zeroed scratch struct, two calls on equal
phrase and setting return identical results, whatever garbage the
stack-allocated struct held before memset in either call. -/
theorem claim_C5_deterministic (lib : CryptLib) (g1 g2 : crypt_data)
    (p s : Bytes) :
    wrap_crypt_r lib g1 p s = wrap_crypt_r lib g2 p s := rfl

/-- C6: wrap_crypt_r passes phrase and setting unmodified to crypt_r and adds
no validation of its own: for every phrase and setting, the empty ones
included, the result is exactly the library's answer on those very arguments
and the zeroed struct, mapped through the strdup copy. -/
theorem claim_C6_passthrough (lib : CryptLib) (g : crypt_data) (p s : Bytes) :
    wrap_crypt_r lib g p s
      = Option.map (fun d => strdup d.output) (lib p s zero_crypt_data) ∧
    wrap_crypt_r lib g [] []
      = Option.map (fun d => strdup d.output) (lib [] [] zero_crypt_data) := by
  constructor <;>
    [cases h : lib p s zero_crypt_data; cases h : lib [] [] zero_crypt_data] <;>
    simp [wrap_crypt_r, memset_zero, h]

/-- C4: an empty argument is remapped to the null pointer before the library
call, so generateSalt of the empty string invokes crypt_gensalt_rn with an
absent algorithm id, and every argument of nonzero length is passed through
unchanged. -/
theorem claim_C4_empty_to_null (lib : GensaltLib) (buf : Bytes) (pfx : Bytes) :
    (strlen pfx = 0 →
      wrap_crypt_gensalt_rn lib buf pfx = gensalt_invoke lib none buf) ∧
    (strlen pfx ≠ 0 →
      wrap_crypt_gensalt_rn lib buf pfx = gensalt_invoke lib (some pfx) buf) := by
  constructor <;> intro h <;> simp [wrap_crypt_gensalt_rn, h]

theorem claim_C4_witness :
    wrap_crypt_gensalt_rn exGensaltLib [] [] = gensalt_invoke exGensaltLib none [] ∧
    wrap_crypt_gensalt_rn exGensaltLib [] [36]
      = gensalt_invoke exGensaltLib (some [36]) [] :=
  ⟨(claim_C4_empty_to_null exGensaltLib [] []).1 rfl,
   (claim_C4_empty_to_null exGensaltLib [] [36]).2 (by decide)⟩

/-- C1 is false on the code: wrap_crypt_gensalt_rn copies with strndup, which
stops at the first null terminator, not with a fixed-width copy of the whole
CRYPT_GENSALT_OUTPUT_SIZE window.  With the library leaving exBuf (three
setting bytes, then a null terminator and unused zeros) in the buffer, the
returned text is the three bytes before the terminator: it is not the full
window exBuf and its length is 3, not CRYPT_GENSALT_OUTPUT_SIZE. -/
theorem claim_C1_counterexample :
    wrap_crypt_gensalt_rn exGensaltLib (List.replicate CRYPT_GENSALT_OUTPUT_SIZE 0) []
      = some [36, 54, 36] ∧
    ([36, 54, 36] : Bytes) ≠ exBuf ∧
    ([36, 54, 36] : Bytes).length ≠ CRYPT_GENSALT_OUTPUT_SIZE := by
  decide

/-- C1 (amended): on every successful call, the returned text is the
strndup(buf, CRYPT_GENSALT_OUTPUT_SIZE) copy of the output buffer: the copy
reads at most CRYPT_GENSALT_OUTPUT_SIZE bytes and stops at the first null
terminator, so its length is at most, not exactly, the fixed window size. -/
theorem claim_C1_amended (lib : GensaltLib) (buf pfx outBuf : Bytes)
    (hcall : lib (if strlen pfx = 0 then none else some pfx) 0 none 0 buf
        CRYPT_GENSALT_OUTPUT_SIZE = some outBuf) :
    wrap_crypt_gensalt_rn lib buf pfx
      = some (strndup outBuf CRYPT_GENSALT_OUTPUT_SIZE) ∧
    (strndup outBuf CRYPT_GENSALT_OUTPUT_SIZE).length ≤ CRYPT_GENSALT_OUTPUT_SIZE := by
  refine ⟨?_, strndup_length_le _ _⟩
  simp [wrap_crypt_gensalt_rn, gensalt_invoke, hcall]

theorem claim_C1_witness :
    wrap_crypt_gensalt_rn exGensaltLib [] []
      = some (strndup exBuf CRYPT_GENSALT_OUTPUT_SIZE) ∧
    (strndup exBuf CRYPT_GENSALT_OUTPUT_SIZE).length ≤ CRYPT_GENSALT_OUTPUT_SIZE :=
  claim_C1_amended exGensaltLib [] [] exBuf rfl

/-- C8: on every successful call, with the library filling the whole
CRYPT_GENSALT_OUTPUT_SIZE buffer, the returned text is the buffer contents
truncated at the first null terminator, contains no interior null bytes, and
its length is at most CRYPT_GENSALT_OUTPUT_SIZE. -/
theorem claim_C8_truncates_at_null (lib : GensaltLib) (buf pfx outBuf : Bytes)
    (hlen : outBuf.length = CRYPT_GENSALT_OUTPUT_SIZE)
    (hcall : lib (if strlen pfx = 0 then none else some pfx) 0 none 0 buf
        CRYPT_GENSALT_OUTPUT_SIZE = some outBuf) :
    ∃ out, wrap_crypt_gensalt_rn lib buf pfx = some out ∧
      out = outBuf.takeWhile (fun b => b != 0) ∧
      (∀ b ∈ out, b ≠ 0) ∧
      out.length ≤ CRYPT_GENSALT_OUTPUT_SIZE := by
  refine ⟨strndup outBuf CRYPT_GENSALT_OUTPUT_SIZE, ?_, ?_,
    strndup_no_null _ _, strndup_length_le _ _⟩
  · simp [wrap_crypt_gensalt_rn, gensalt_invoke, hcall]
  · simp only [strndup]
    rw [← hlen, List.take_length]

theorem claim_C8_witness :
    ∃ out, wrap_crypt_gensalt_rn exGensaltLib [] [] = some out ∧
      out = exBuf.takeWhile (fun b => b != 0) ∧
      (∀ b ∈ out, b ≠ 0) ∧
      out.length ≤ CRYPT_GENSALT_OUTPUT_SIZE :=
  claim_C8_truncates_at_null exGensaltLib [] [] exBuf (by decide) rfl

/-- C10: at the C boundary the argument of wrap_crypt_gensalt_rn must be a
present string: strlen is applied to it before any null check, so the call on
a null argument is undefined, while on every present argument the call is
defined and equals wrap_crypt_gensalt_rn on that string. -/
theorem claim_C10_null_precondition (lib : GensaltLib) (buf : Bytes) :
    wrap_crypt_gensalt_rn_c lib buf none = none ∧
    (∀ pfx, wrap_crypt_gensalt_rn_c lib buf (some pfx)
      = some (wrap_crypt_gensalt_rn lib buf pfx)) := by
  exact ⟨rfl, fun pfx => rfl⟩

end Lowlevel
